import Mathlib

/-!
# Verification of the Flighty query script (`query_flights.py`)

A shallow embedding of the flight-query script over an explicit in-memory
relational store.  SQLite rows become Lean structures, SQL queries become
list pipelines (filter / sort / take / map), and Python's numeric semantics
(floored division and modulus, `int()` truncation, truthiness) are made
explicit.  Timestamps and distances are modelled as exact rationals
(the database stores REAL values); SQL `NULL` becomes `Option`.

The local timezone is modelled as UTC: `datetime.fromtimestamp`,
`datetime.timestamp` and friends are embedded as pure civil-calendar
conversions on epoch seconds (proleptic Gregorian calendar), and the
sub-second part of a timestamp is floored to microseconds when formatting.
-/

namespace QueryFlights

/-! ## Data model: rows of the external store -/

/-- A row of the `Airline` table (`id`, `iata`, `name`). -/
structure Airline where
  id : Nat
  iata : Option String
  name : Option String
deriving DecidableEq, Repr

/-- A row of the `Airport` table (`id`, `iata`, `name`, `city`). -/
structure Airport where
  id : Nat
  iata : Option String
  name : Option String
  city : Option String
deriving DecidableEq, Repr

/-- A row of the `Flight` table.  Foreign keys are modelled as non-null
identifiers; timestamps are epoch seconds as exact rationals. -/
structure Flight where
  id : Nat
  airlineId : Nat
  number : Option String
  departureAirportId : Nat
  actualArrivalAirportId : Nat
  departureScheduleGateOriginal : Option ℚ
  arrivalScheduleGateOriginal : Option ℚ
  equipmentModelName : Option String
  departureTerminal : Option String
  departureGate : Option String
  arrivalTerminal : Option String
  arrivalGate : Option String
  distance : Option ℚ
deriving DecidableEq, Repr

/-- A row of the `UserFlight` join table. -/
structure UserFlight where
  flightId : Nat
  userId : Nat
  isMyFlight : Bool
  isArchived : Bool
  importSource : Option String
deriving DecidableEq, Repr

/-- A row of the `Ticket` table. -/
structure Ticket where
  flightId : Nat
  userId : Nat
  pnr : Option String
  seatNumber : Option String
  cabinClass : Option String
deriving DecidableEq, Repr

/-- The whole relational store read by the script. -/
structure Store where
  flights : List Flight
  userFlights : List UserFlight
  airlines : List Airline
  airports : List Airport
  tickets : List Ticket
deriving DecidableEq, Repr

/-! ## Identity resolver (`get_main_user_id`) -/

/-- The SQL row filter
`importSource != 'CONNECTED_FRIEND' AND importSource IS NOT NULL AND importSource != ''`:
a `NULL` import source fails every three-valued comparison, so a row
qualifies exactly when its source is present, non-empty and not the
connected-friend category. -/
def eligibleSource (uf : UserFlight) : Bool :=
  match uf.importSource with
  | none => false
  | some src => src != "CONNECTED_FRIEND" && src != ""

/-- The `COUNT(*)` of the eligible rows of one `userId` group. -/
def sourceCount (s : Store) (u : Nat) : Nat :=
  (s.userFlights.filter (fun uf => eligibleSource uf && uf.userId == u)).length

/-- SQL `ORDER BY COUNT(*) DESC LIMIT 1` over the groups: pick an element of
maximal count (ties broken arbitrarily, here by keeping the earlier
element), `none` on an empty group list. -/
def maxByCount (f : Nat → Nat) : List Nat → Option Nat
  | [] => none
  | u :: us =>
    match maxByCount f us with
    | none => some u
    | some v => if f u < f v then some v else some u

/-- Source `get_main_user_id`: group the eligible `UserFlight` rows by `userId`,
order the groups by descending row count and return the first `userId`
(`None` when no eligible row exists). -/
def get_main_user_id (s : Store) : Option Nat :=
  maxByCount (sourceCount s) ((s.userFlights.filter eligibleSource).map (·.userId)).dedup

/-! ## Python numeric and string primitives -/

/-- Python `int(x)` on a number: truncation toward zero. -/
def pyTrunc (q : ℚ) : ℤ := if 0 ≤ q then ⌊q⌋ else ⌈q⌉

/-- Python `x % y` (floored modulus, here for `y > 0`):
`x - y * (x // y)` with `//` the floored quotient. -/
def pyFMod (x y : ℚ) : ℚ := x - y * ⌊x / y⌋

/-- Python string interpolation `f"{v}"` of a possibly-`None` value:
`None` renders as the four characters `None`. -/
def pyStr (v : Option String) : String :=
  match v with
  | none => "None"
  | some s => s

/-- Python `str.isdigit()` on ASCII text: non-empty and all digits. -/
def pyIsDigit (s : String) : Bool :=
  s.length != 0 && s.toList.all Char.isDigit

/-- Python `str.startswith(prefix)`: character-list prefix test. -/
def pyStartsWith (s pre : String) : Bool :=
  pre.toList.isPrefixOf s.toList

/-- Decimal digits to a number, for Python `int(<digit string>)`. -/
def digitsToNat (s : String) : Nat :=
  s.toList.foldl (fun n c => 10 * n + (c.toNat - 48)) 0

/-- Python `str.title()` (ASCII): the first letter of each maximal letter
run is uppercased, the following letters lowercased. -/
def pyTitle (s : String) : String :=
  let step : List Char × Bool → Char → List Char × Bool := fun acc c =>
    if c.isAlpha then
      (acc.1 ++ [if acc.2 then c.toLower else c.toUpper], true)
    else
      (acc.1 ++ [c], false)
  String.mk (s.toList.foldl step ([], false)).1

/-! ## Time/unit helpers

`datetime.fromtimestamp` / `strftime` are embedded as pure civil-calendar
conversions with the local timezone modelled as UTC.  Fractional seconds
are floored to microseconds when formatting.
-/

/-- Civil date of a day count since 1970-01-01 (proleptic Gregorian),
returning `(year, month, day)`. -/
def civilFromDays (z : ℤ) : ℤ × Nat × Nat :=
  let z' := z + 719468
  let era := Int.fdiv z' 146097
  let doe := (z' - era * 146097).toNat
  let yoe := (doe - doe / 1460 + doe / 36524 - doe / 146096) / 365
  let doy := doe - (365 * yoe + yoe / 4 - yoe / 100)
  let mp := (5 * doy + 2) / 153
  let d := doy - (153 * mp + 2) / 5 + 1
  let m := if mp < 10 then mp + 3 else mp - 9
  (era * 400 + yoe + (if m ≤ 2 then 1 else 0), m, d)

/-- Day count since 1970-01-01 of a civil date (proleptic Gregorian). -/
def daysFromCivil (y : ℤ) (m d : Nat) : ℤ :=
  let y' : ℤ := if m ≤ 2 then y - 1 else y
  let era := Int.fdiv y' 400
  let yoe := (y' - era * 400).toNat
  let mp := if 2 < m then m - 3 else m + 9
  let doy := (153 * mp + 2) / 5 + d - 1
  let doe := yoe * 365 + yoe / 4 - yoe / 100 + doy
  era * 146097 + (doe : ℤ) - 719468

/-- Leap year in the Gregorian calendar. -/
def isLeapYear (y : Nat) : Bool :=
  (y % 4 == 0 && y % 100 != 0) || y % 400 == 0

/-- Number of days of month `m` of year `y`. -/
def daysInMonth (y m : Nat) : Nat :=
  if m == 2 then (if isLeapYear y then 29 else 28)
  else if m == 4 || m == 6 || m == 9 || m == 11 then 30
  else 31

/-- Zero-pad to two digits. -/
def pad2 (n : Nat) : String := if n < 10 then "0" ++ toString n else toString n

/-- Zero-pad to four digits. -/
def pad4 (n : Nat) : String :=
  if n < 10 then "000" ++ toString n
  else if n < 100 then "00" ++ toString n
  else if n < 1000 then "0" ++ toString n
  else toString n

/-- Zero-pad to six digits. -/
def pad6 (n : Nat) : String :=
  if n < 100000 then "0" ++ pad4 (n / 10) ++ toString (n % 10) else toString n

/-- The `(year, month, day, hour, minute, second, microsecond)` of an epoch
timestamp, the local timezone modelled as UTC and the sub-second part
floored to microseconds. -/
def tsParts (q : ℚ) : ℤ × Nat × Nat × Nat × Nat × Nat × Nat :=
  let days := ⌊q / 86400⌋
  let ymd := civilFromDays days
  let secs : ℚ := q - 86400 * (days : ℚ)
  let s := (⌊secs⌋).toNat
  let micro := (⌊(secs - (⌊secs⌋ : ℚ)) * 1000000⌋).toNat
  (ymd.1, ymd.2.1, ymd.2.2, s / 3600, s % 3600 / 60, s % 60, micro)

/-- Python `datetime.fromtimestamp(ts).isoformat()`. -/
def isoOfTs (q : ℚ) : String :=
  let p := tsParts q
  pad4 p.1.toNat ++ "-" ++ pad2 p.2.1 ++ "-" ++ pad2 p.2.2.1 ++ "T" ++
    pad2 p.2.2.2.1 ++ ":" ++ pad2 p.2.2.2.2.1 ++ ":" ++ pad2 p.2.2.2.2.2.1 ++
    (if p.2.2.2.2.2.2 == 0 then "" else "." ++ pad6 p.2.2.2.2.2.2)

/-- The `strftime("%b")` month abbreviations. -/
def monthAbbrev (m : Nat) : String :=
  (["Jan", "Feb", "Mar", "Apr", "May", "Jun", "Jul", "Aug", "Sep", "Oct",
    "Nov", "Dec"].get? (m - 1)).getD ""

/-- Python `datetime.fromtimestamp(ts).strftime("%b %d, %Y %I:%M %p")`. -/
def displayOfTs (q : ℚ) : String :=
  let p := tsParts q
  let hh := p.2.2.2.1
  let hh12 := if hh % 12 == 0 then 12 else hh % 12
  monthAbbrev p.2.1 ++ " " ++ pad2 p.2.2.1 ++ ", " ++ toString p.1.toNat ++
    " " ++ pad2 hh12 ++ ":" ++ pad2 p.2.2.2.2.1 ++ " " ++
    (if hh < 12 then "AM" else "PM")

/-- Python `datetime.fromtimestamp(ts).strftime("%Y-%m-%d")`. -/
def dateOfTs (q : ℚ) : String :=
  let p := tsParts q
  pad4 p.1.toNat ++ "-" ++ pad2 p.2.1 ++ "-" ++ pad2 p.2.2.1

/-- Source `convert_timestamp`: Unix timestamp to ISO string, `None` passed through. -/
def convert_timestamp (ts : Option ℚ) : Option String := ts.map isoOfTs

/-- Source `convert_date`: Unix timestamp to `YYYY-MM-DD`, `None` passed through. -/
def convert_date (ts : Option ℚ) : Option String := ts.map dateOfTs

/-- Source `format_datetime`: display formatting, `None` passed through. -/
def format_datetime (ts : Option ℚ) : Option String := ts.map displayOfTs

/-- Source `calculate_duration`: `None` if either endpoint is missing, else
`"<H>h <M>m"` with `H = int((arrival-departure) // 3600)` and
`M = int(((arrival-departure) % 3600) // 60)` (Python floored `//`, `%`). -/
def calculate_duration (departure arrival : Option ℚ) : Option String :=
  match departure, arrival with
  | some d, some a =>
    let ds := a - d
    let hours : ℤ := ⌊ds / 3600⌋
    let minutes : ℤ := ⌊pyFMod ds 3600 / 60⌋
    some (toString hours ++ "h " ++ toString minutes ++ "m")
  | _, _ => none

/-- Source `days_until`: `(datetime.fromtimestamp(ts) - datetime.now()).days`,
i.e. the floored whole-day difference; `None` passed through. -/
def days_until (now : ℚ) (ts : Option ℚ) : Option ℤ :=
  ts.map (fun t => ⌊(t - now) / 86400⌋)

/-- The inline distance conversion
`int(row[19] * 0.621371) if row[19] else None` (the spec's `km_to_miles`):
`None` on a missing or zero (falsy) distance, else Python `int()` of the
kilometer value times `0.621371`. -/
def km_to_miles (km : Option ℚ) : Option ℤ :=
  match km with
  | none => none
  | some k => if k = 0 then none else some (pyTrunc (k * (621371 / 1000000)))

/-! ## Parsing with `datetime.strptime(date_str, "%Y-%m-%d")`

CPython matches `%Y` as exactly four digits, `%m` as `1[0-2]|0[1-9]|[1-9]`
(one or two digits, value 1..12, so unpadded months are accepted) and `%d`
as `3[01]|[12][0-9]|0[1-9]|[1-9]` (one or two digits, value 1..31), requires
the whole string to be consumed, and the `datetime` constructor then
rejects a day beyond the month's length and a year outside 1..9999
(four digits cap the year, so only year 0 can still fail).
-/

/-- One-or-two digit field with value in `lo..hi` (the `%m` / `%d`
sub-patterns of CPython's `_strptime`). -/
def fieldOk (cs : List Char) (lo hi : Nat) : Bool :=
  (cs.length == 1 || cs.length == 2) && cs.all Char.isDigit &&
    lo ≤ digitsToNat (String.mk cs) && digitsToNat (String.mk cs) ≤ hi

/-- Python `datetime.strptime(s, "%Y-%m-%d")`: `some (year, month, day)` on
success, `none` when a `ValueError` is raised. -/
def strptimeYmd (s : String) : Option (Nat × Nat × Nat) :=
  match s.toList with
  | y1 :: y2 :: y3 :: y4 :: '-' :: rest =>
    if y1.isDigit && y2.isDigit && y3.isDigit && y4.isDigit then
      let y := digitsToNat (String.mk [y1, y2, y3, y4])
      match rest.splitOn '-' with
      | [ms, ds] =>
        if fieldOk ms 1 12 && fieldOk ds 1 31 then
          let m := digitsToNat (String.mk ms)
          let d := digitsToNat (String.mk ds)
          if 1 ≤ y && d ≤ daysInMonth y m then some (y, m, d) else none
        else none
      | _ => none
    else none
  | _ => none

/-- The spec's words, for comparison with the source behavior: a string is
"a valid calendar date in `YYYY-MM-DD` form" when it is exactly ten
characters `dddd-dd-dd` whose month is 01..12 and whose (two-digit,
zero-padded) day exists in that month of that year. -/
def specValidYYYYMMDD (s : String) : Bool :=
  match s.toList with
  | [y1, y2, y3, y4, h1, m1, m2, h2, d1, d2] =>
    y1.isDigit && y2.isDigit && y3.isDigit && y4.isDigit &&
      h1 == '-' && h2 == '-' && m1.isDigit && m2.isDigit &&
      d1.isDigit && d2.isDigit &&
      (let y := digitsToNat (String.mk [y1, y2, y3, y4])
       let m := digitsToNat (String.mk [m1, m2])
       let d := digitsToNat (String.mk [d1, d2])
       1 ≤ m && m ≤ 12 && 1 ≤ d && d ≤ daysInMonth y m)
  | _ => false

/-! ## The join

`FROM Flight f JOIN UserFlight uf ON f.id = uf.flightId
JOIN Airline a ON f.airlineId = a.id
JOIN Airport dep ON f.departureAirportId = dep.id
JOIN Airport arr ON f.actualArrivalAirportId = arr.id
LEFT JOIN Ticket t ON f.id = t.flightId AND uf.userId = t.userId`
-/

/-- One tuple of the five-way join shared by the row-producing queries. -/
structure Row where
  f : Flight
  uf : UserFlight
  a : Airline
  dep : Airport
  arr : Airport
  t : Option Ticket
deriving DecidableEq, Repr

/-- The `LEFT JOIN Ticket`: all matching tickets, or a single `NULL`
ticket when none matches. -/
def leftJoinTicket (s : Store) (f : Flight) (uf : UserFlight) : List (Option Ticket) :=
  match s.tickets.filter (fun t => t.flightId == f.id && t.userId == uf.userId) with
  | [] => [none]
  | ts => ts.map some

/-- All tuples of the five-way join, before any `WHERE` filter. -/
def joinRows (s : Store) : List Row :=
  s.flights.flatMap (fun f =>
    (s.userFlights.filter (fun uf => uf.flightId == f.id)).flatMap (fun uf =>
      (s.airlines.filter (fun a => a.id == f.airlineId)).flatMap (fun a =>
        (s.airports.filter (fun ap => ap.id == f.departureAirportId)).flatMap (fun dep =>
          (s.airports.filter (fun ap => ap.id == f.actualArrivalAirportId)).flatMap (fun arr =>
            (leftJoinTicket s f uf).map (fun t => Row.mk f uf a dep arr t))))))

/-! ## Sorting for `ORDER BY f.departureScheduleGateOriginal` -/

/-- SQL ascending comparison on a nullable sort key: `NULL` sorts first. -/
def optLE : Option ℚ → Option ℚ → Bool
  | none, _ => true
  | some _, none => false
  | some a, some b => a ≤ b

/-- Ascending order on join tuples by scheduled departure. -/
def rowAsc (x y : Row) : Prop :=
  optLE x.f.departureScheduleGateOriginal y.f.departureScheduleGateOriginal = true

/-- Descending order on join tuples by scheduled departure. -/
def rowDesc (x y : Row) : Prop :=
  optLE y.f.departureScheduleGateOriginal x.f.departureScheduleGateOriginal = true

instance : DecidableRel rowAsc := fun _ _ => decEq _ _

instance : DecidableRel rowDesc := fun _ _ => decEq _ _

/-- Totality of the SQL ascending comparison. -/
def optLE_total_def : ∀ a b : Option ℚ, optLE a b = true ∨ optLE b a = true := by
  intro a b
  cases a with
  | none => left; rfl
  | some x =>
    cases b with
    | none => right; rfl
    | some y =>
      simp only [optLE, decide_eq_true_eq]
      exact le_total x y

/-- Transitivity of the SQL ascending comparison. -/
def optLE_trans_def : ∀ {a b c : Option ℚ}, optLE a b = true → optLE b c = true →
    optLE a c = true := by
  intro a b c h1 h2
  cases a with
  | none => rfl
  | some x =>
    cases b with
    | none => exact absurd h1 (by simp [optLE])
    | some y =>
      cases c with
      | none => exact absurd h2 (by simp [optLE])
      | some z =>
        simp only [optLE, decide_eq_true_eq] at h1 h2 ⊢
        exact le_trans h1 h2

instance : IsTotal Row rowAsc := ⟨fun _ _ => optLE_total_def _ _⟩

instance : IsTrans Row rowAsc := ⟨fun _ _ _ => optLE_trans_def⟩

instance : IsTotal Row rowDesc := ⟨fun _ _ => (optLE_total_def _ _).symm⟩

instance : IsTrans Row rowDesc := ⟨fun _ _ _ h1 h2 => optLE_trans_def h2 h1⟩

/-! ## Record normalizer -/

/-- Nested departure/arrival sub-record of the full normalized record. -/
structure EndRecord where
  airport_code : Option String
  airport_name : Option String
  city : Option String
  datetime : Option String
  display : Option String
  terminal : Option String
  gate : Option String
deriving DecidableEq, Repr

/-- The full normalized flight record built by `list_upcoming_flights`. -/
structure FlightRecord where
  flight : Option String
  airline : Option String
  flight_number : Option String
  route : String
  departure : EndRecord
  arrival : EndRecord
  confirmation : Option String
  seat : Option String
  cabin_class : Option String
  aircraft : Option String
  duration : Option String
  distance_km : Option ℚ
  distance_miles : Option ℤ
  days_until : Option ℤ
  import_source : Option String
deriving DecidableEq, Repr

/-- Cabin-class display rewrite:
`cabin_class.replace("premiumEconomy", "Premium Economy")
.replace("privateJet", "Private Jet").title()` when the raw value is
truthy, `None` otherwise. -/
def cabinDisplay (cc : Option String) : Option String :=
  match cc with
  | none => none
  | some c =>
    if c == "" then none
    else some (pyTitle ((c.replace "premiumEconomy" "Premium Economy").replace
      "privateJet" "Private Jet"))

/-- The record built per row by `list_upcoming_flights` (lines 156-188 of
the source).  `flight` is `f"{row[0]} {row[2]}" if row[0] and row[2] else
None`: present only when both components are truthy (non-null, non-empty). -/
def upcomingRecord (now : ℚ) (r : Row) : FlightRecord where
  flight :=
    match r.a.iata, r.f.number with
    | some c, some n => if c != "" && n != "" then some (c ++ " " ++ n) else none
    | _, _ => none
  airline := r.a.name
  flight_number := r.f.number
  route := pyStr r.dep.iata ++ " → " ++ pyStr r.arr.iata
  departure :=
    { airport_code := r.dep.iata
      airport_name := r.dep.name
      city := r.dep.city
      datetime := convert_timestamp r.f.departureScheduleGateOriginal
      display := format_datetime r.f.departureScheduleGateOriginal
      terminal := r.f.departureTerminal
      gate := r.f.departureGate }
  arrival :=
    { airport_code := r.arr.iata
      airport_name := r.arr.name
      city := r.arr.city
      datetime := convert_timestamp r.f.arrivalScheduleGateOriginal
      display := format_datetime r.f.arrivalScheduleGateOriginal
      terminal := r.f.arrivalTerminal
      gate := r.f.arrivalGate }
  confirmation := r.t.bind Ticket.pnr
  seat := r.t.bind Ticket.seatNumber
  cabin_class := cabinDisplay (r.t.bind Ticket.cabinClass)
  aircraft := r.f.equipmentModelName
  duration := calculate_duration r.f.departureScheduleGateOriginal
    r.f.arrivalScheduleGateOriginal
  distance_km := r.f.distance
  distance_miles := km_to_miles r.f.distance
  days_until := days_until now r.f.departureScheduleGateOriginal
  import_source := r.uf.importSource

/-- The flat record built per row by `get_flights_on_date` (lines 239-248):
note `flight` and `route` are plain f-strings with no null handling, and
the raw cabin class is emitted without the display rewrite. -/
structure DateRecord where
  flight : String
  route : String
  departure : Option String
  arrival : Option String
  confirmation : Option String
  seat : Option String
  cabin_class : Option String
  aircraft : Option String
deriving DecidableEq, Repr

def onDateRecord (r : Row) : DateRecord where
  flight := pyStr r.a.iata ++ " " ++ pyStr r.f.number
  route := pyStr r.dep.iata ++ " → " ++ pyStr r.arr.iata
  departure := format_datetime r.f.departureScheduleGateOriginal
  arrival := format_datetime r.f.arrivalScheduleGateOriginal
  confirmation := r.t.bind Ticket.pnr
  seat := r.t.bind Ticket.seatNumber
  cabin_class := r.t.bind Ticket.cabinClass
  aircraft := r.f.equipmentModelName

/-- The flat record built per row by `get_recent_flights` (lines 350-356):
again `flight` is a plain f-string with no null handling. -/
structure RecentRecord where
  flight : String
  route : String
  date : Option String
  aircraft : Option String
  distance_km : Option ℚ
deriving DecidableEq, Repr

def recentRecord (r : Row) : RecentRecord where
  flight := pyStr r.a.iata ++ " " ++ pyStr r.f.number
  route := pyStr r.dep.iata ++ " → " ++ pyStr r.arr.iata
  date := convert_date r.f.departureScheduleGateOriginal
  aircraft := r.f.equipmentModelName
  distance_km := r.f.distance

/-! ## The query operations -/

/-- The `WHERE` clause of `list_upcoming_flights`.  With
`include_friends=False` the clause is
`uf.isMyFlight = 1 AND f.departureScheduleGateOriginal > ? AND
uf.userId = ? AND uf.importSource != 'CONNECTED_FRIEND'` where the second
parameter is the resolved main user: a `NULL` departure, a `NULL` main
user or a `NULL` import source fails the three-valued comparison. -/
def upcomingFilter (now : ℚ) (mainUser : Option Nat) (includeFriends : Bool)
    (r : Row) : Bool :=
  if includeFriends then
    r.uf.isMyFlight &&
      (match r.f.departureScheduleGateOriginal with
       | some d => decide (now < d)
       | none => false)
  else
    r.uf.isMyFlight &&
      (match r.f.departureScheduleGateOriginal with
       | some d => decide (now < d)
       | none => false) &&
      (match mainUser with
       | some u => r.uf.userId == u
       | none => false) &&
      (match r.uf.importSource with
       | some src => src != "CONNECTED_FRIEND"
       | none => false)

/-- The rows selected, ordered and limited by `list_upcoming_flights`. -/
def upcomingRows (s : Store) (now : ℚ) (limit : Nat) (includeFriends : Bool) :
    List Row :=
  (((joinRows s).filter
      (upcomingFilter now (get_main_user_id s) includeFriends)).insertionSort
    rowAsc).take limit

/-- Result shape of `list_upcoming_flights`. -/
structure UpcomingResult where
  flights : List FlightRecord
  count : Nat
deriving DecidableEq, Repr

/-- Source `list_upcoming_flights(conn, limit=20, include_friends=False)`. -/
def list_upcoming_flights (s : Store) (now : ℚ) (limit : Nat)
    (includeFriends : Bool) : UpcomingResult :=
  let flights := (upcomingRows s now limit includeFriends).map (upcomingRecord now)
  { flights := flights, count := flights.length }

/-- Result of `get_flights_on_date`: either the structured error object or
the date/flights/count object. -/
inductive DateResult where
  | error (msg : String)
  | ok (date : String) (flights : List DateRecord) (count : Nat)
deriving DecidableEq, Repr

/-- SQL `WHERE uf.isMyFlight = 1 AND f.departureScheduleGateOriginal >= ?
AND f.departureScheduleGateOriginal <= ?`. -/
def onDateFilter (startTs endTs : ℚ) (r : Row) : Bool :=
  r.uf.isMyFlight &&
    (match r.f.departureScheduleGateOriginal with
     | some d => decide (startTs ≤ d) && decide (d ≤ endTs)
     | none => false)

/-- Source `get_flights_on_date(conn, date_str)`: parse the date with
`strptime("%Y-%m-%d")`; on `ValueError` return the structured error
without touching the store, else query the day
`[target_date.timestamp(), target_date.replace(hour=23, minute=59,
second=59).timestamp()]`. -/
def get_flights_on_date (s : Store) (dateStr : String) : DateResult :=
  match strptimeYmd dateStr with
  | none => .error ("Invalid date format: " ++ dateStr ++ ". Use YYYY-MM-DD")
  | some ymd =>
    let startTs : ℚ := 86400 * (daysFromCivil ymd.1 ymd.2.1 ymd.2.2 : ℚ)
    let endTs : ℚ := startTs + 86399
    let flights :=
      (((joinRows s).filter (onDateFilter startTs endTs)).insertionSort
        rowAsc).map onDateRecord
    .ok dateStr flights flights.length

/-- SQL `WHERE uf.isMyFlight = 1 AND uf.isArchived = 0 AND
f.departureScheduleGateOriginal < ?`. -/
def recentFilter (now : ℚ) (r : Row) : Bool :=
  r.uf.isMyFlight && !r.uf.isArchived &&
    (match r.f.departureScheduleGateOriginal with
     | some d => decide (d < now)
     | none => false)

/-- The rows selected, ordered (descending) and limited by
`get_recent_flights`. -/
def recentRows (s : Store) (now : ℚ) (limit : Nat) : List Row :=
  (((joinRows s).filter (recentFilter now)).insertionSort rowDesc).take limit

/-- Result shape of `get_recent_flights`. -/
structure RecentResult where
  recent_flights : List RecentRecord
  count : Nat
deriving DecidableEq, Repr

/-- Source `get_recent_flights(conn, limit=20)`. -/
def get_recent_flights (s : Store) (now : ℚ) (limit : Nat) : RecentResult :=
  let flights := (recentRows s now limit).map recentRecord
  { recent_flights := flights, count := flights.length }

/-! ## `get_flight_stats` -/

/-- The two-table join of the stats query:
`FROM Flight f JOIN UserFlight uf ON f.id = uf.flightId
WHERE uf.isMyFlight = 1`. -/
def statsRows (s : Store) : List (Flight × UserFlight) :=
  s.flights.flatMap (fun f =>
    (s.userFlights.filter (fun uf => uf.flightId == f.id && uf.isMyFlight)).map
      (fun uf => (f, uf)))

/-- Result shape of `get_flight_stats`.  `upcoming_flights` is an SQL
`SUM`, hence `NULL` on an empty row set. -/
structure Stats where
  total_flights : Nat
  upcoming_flights : Option Nat
  total_distance_km : ℚ
  total_distance_miles : ℤ
  earth_circumferences : ℚ
deriving DecidableEq, Repr

/-- Python `round(x, 2)` with round-half-to-even on the hundredths. -/
def roundTo2 (q : ℚ) : ℚ :=
  let x := q * 100
  let f := ⌊x⌋
  let r : ℤ :=
    if x - (f : ℚ) < 1 / 2 then f
    else if (1 : ℚ) / 2 < x - (f : ℚ) then f + 1
    else if 2 ∣ f then f else f + 1
  (r : ℚ) / 100

/-- Source `get_flight_stats(conn)`: `COUNT(*)`, `SUM(CASE WHEN departure > now
THEN 1 ELSE 0 END)` (`NULL` on an empty set), `SUM(f.distance)` (`NULL`s
skipped, `NULL` when nothing is summed) defaulted to 0 by `row[2] or 0`,
then the mile conversion and `round(total_km / 40075, 2)`. -/
def get_flight_stats (s : Store) (now : ℚ) : Stats :=
  let rows := statsRows s
  let upcoming : Option Nat :=
    if rows.isEmpty then none
    else some (rows.countP (fun r =>
      match r.1.departureScheduleGateOriginal with
      | some d => decide (now < d)
      | none => false))
  let distances := rows.filterMap (fun r => r.1.distance)
  let totalKm : ℚ := (if distances.isEmpty then none else some distances.sum).getD 0
  { total_flights := rows.length
    upcoming_flights := upcoming
    total_distance_km := totalKm
    total_distance_miles := pyTrunc (totalKm * (621371 / 1000000))
    earth_circumferences := roundTo2 (totalKm / 40075) }

/-! ## Command router (`main`) -/

/-- The Query Engine call selected by `main` from the command-line
arguments, with its passed-through arguments. -/
inductive Dispatch where
  | listCmd (limit : Nat) (includeFriends : Bool)
  | nextCmd
  | dateCmd (dateStr : String)
  | dateUsageError
  | pnrCmd (code : String)
  | pnrUsageError
  | statsCmd
  | recentCmd (limitArg : Option String)
  | unknownCmd (command : String)
deriving DecidableEq, Repr

/-- The dispatch of `main` (lines 367-406): `arg1` is `sys.argv[1]` and
`rest` is `sys.argv[2:]`.  Note line 367 first rewrites any first argument
starting with `--` to the command `list`. -/
def route (arg1 : String) (rest : List String) : Dispatch :=
  let command := if pyStartsWith arg1 "--" then "list" else arg1
  if command == "list" || command == "--list" then
    let acc := rest.foldl
      (fun (st : Nat × Bool) arg =>
        if arg == "--include-friends" then (st.1, true)
        else if pyIsDigit arg then (digitsToNat arg, st.2)
        else st)
      (20, false)
    .listCmd acc.1 acc.2
  else if command == "next" || command == "--next" then .nextCmd
  else if command == "date" || command == "--date" then
    match rest.head? with
    | none => .dateUsageError
    | some d => .dateCmd d
  else if command == "pnr" || command == "--pnr" then
    match rest.head? with
    | none => .pnrUsageError
    | some p => .pnrCmd p
  else if command == "stats" || command == "--stats" then .statsCmd
  else if command == "recent" || command == "--recent" then .recentCmd rest.head?
  else .unknownCmd command

/-! ## Concrete example stores -/

/-- The store with no rows at all. -/
def emptyStore : Store := ⟨[], [], [], [], []⟩

/-- A `UserFlight` row of flight 1 for user `u` with the given source. -/
def exUF (u : Nat) (src : String) : UserFlight := ⟨1, u, true, false, some src⟩

/-- The store of the spec's resolver example: user 1 ("A") has three rows
with `importSource='MANUAL'`, user 2 ("B") has five rows with
`importSource='CONNECTED_FRIEND'`. -/
def exStore : Store :=
  ⟨[], List.replicate 3 (exUF 1 "MANUAL") ++
    List.replicate 5 (exUF 2 "CONNECTED_FRIEND"), [], [], []⟩

/-- A fully-joined sample flight: airline 10, airports 20 and 21,
departing at epoch 100, arriving at epoch 7600, 100 km. -/
def fl1 : Flight :=
  { id := 1, airlineId := 10, number := some "100", departureAirportId := 20,
    actualArrivalAirportId := 21, departureScheduleGateOriginal := some 100,
    arrivalScheduleGateOriginal := some 7600, equipmentModelName := some "A320",
    departureTerminal := none, departureGate := none, arrivalTerminal := none,
    arrivalGate := none, distance := some 100 }

/-- Airline 10 with a present IATA code. -/
def asAirline : Airline := ⟨10, some "AS", some "Alaska"⟩

/-- Airline 10 with a `NULL` IATA code. -/
def noCodeAirline : Airline := ⟨10, none, some "Mystery Air"⟩

/-- Departure airport 20. -/
def seaAirport : Airport := ⟨20, some "SEA", some "Seattle-Tacoma", some "Seattle"⟩

/-- Arrival airport 21. -/
def sfoAirport : Airport := ⟨21, some "SFO", some "San Francisco", some "San Francisco"⟩

/-- A store holding one directly-imported flight of user 7. -/
def w1Store : Store :=
  ⟨[fl1], [⟨1, 7, true, false, some "MANUAL"⟩], [asAirline],
    [seaAirport, sfoAirport], []⟩

/-- The single join tuple of `w1Store`. -/
def w1Row : Row :=
  ⟨fl1, ⟨1, 7, true, false, some "MANUAL"⟩, asAirline, seaAirport, sfoAirport, none⟩

/-- A store whose only `UserFlight` row came through connected-friend
sharing, so the primary-user resolver finds nobody. -/
def cfStore : Store :=
  ⟨[fl1], [⟨1, 2, true, false, some "CONNECTED_FRIEND"⟩], [asAirline],
    [seaAirport, sfoAirport], []⟩

/-- A store whose airline has no IATA code, for the `recent` projection. -/
def c5Store : Store :=
  ⟨[fl1], [⟨1, 7, true, false, some "MANUAL"⟩], [noCodeAirline],
    [seaAirport, sfoAirport], []⟩

/-! ### Resolver lemmas -/

theorem maxByCount_eq_none_iff (f : Nat → Nat) (l : List Nat) :
    maxByCount f l = none ↔ l = [] := by
  induction l with
  | nil => simp [maxByCount]
  | cons u us ih =>
    simp only [maxByCount]
    cases h : maxByCount f us with
    | none => simp
    | some v => by_cases hc : f u < f v <;> simp [hc]

theorem maxByCount_mem {f : Nat → Nat} {l : List Nat} :
    ∀ {u : Nat}, maxByCount f l = some u → u ∈ l := by
  induction l with
  | nil => intro u h; simp [maxByCount] at h
  | cons a as ih =>
    intro u h
    simp only [maxByCount] at h
    split at h
    · simp only [Option.some.injEq] at h
      simp [h]
    · next v hm =>
        split at h
        · simp only [Option.some.injEq] at h
          exact List.mem_cons_of_mem _ (ih (h ▸ hm))
        · simp only [Option.some.injEq] at h
          simp [h]

theorem maxByCount_le {f : Nat → Nat} {l : List Nat} :
    ∀ {u : Nat}, maxByCount f l = some u → ∀ v ∈ l, f v ≤ f u := by
  induction l with
  | nil => intro u _; simp
  | cons a as ih =>
    intro u h
    simp only [maxByCount] at h
    split at h
    · next hm =>
        simp only [Option.some.injEq] at h
        have has : as = [] := (maxByCount_eq_none_iff f as).1 hm
        subst has
        simp [← h]
    · next v hm =>
        split at h
        · next hc =>
            simp only [Option.some.injEq] at h
            subst h
            intro w hw
            rcases List.mem_cons.1 hw with hw | hw
            · exact hw ▸ le_of_lt hc
            · exact ih hm w hw
        · next hc =>
            simp only [Option.some.injEq] at h
            subst h
            intro w hw
            rcases List.mem_cons.1 hw with hw | hw
            · exact hw ▸ le_refl _
            · exact le_trans (ih hm w hw) (not_lt.1 hc)

/-! ### Python modulus bounds -/

theorem pyFMod_eq_mul_fract (x : ℚ) {y : ℚ} (hy : 0 < y) :
    pyFMod x y = y * Int.fract (x / y) := by
  unfold pyFMod Int.fract
  field_simp

theorem pyFMod_nonneg (x : ℚ) {y : ℚ} (hy : 0 < y) : 0 ≤ pyFMod x y := by
  rw [pyFMod_eq_mul_fract x hy]
  exact mul_nonneg hy.le (Int.fract_nonneg _)

theorem pyFMod_lt (x : ℚ) {y : ℚ} (hy : 0 < y) : pyFMod x y < y := by
  rw [pyFMod_eq_mul_fract x hy]
  calc y * Int.fract (x / y) < y * 1 :=
        mul_lt_mul_of_pos_left (Int.fract_lt_one _) hy
    _ = y := mul_one y

/-! ### Membership in the selected rows -/

theorem upcomingRows_filterProp {s : Store} {now : ℚ} {limit : Nat}
    {incf : Bool} {r : Row} (h : r ∈ upcomingRows s now limit incf) :
    upcomingFilter now (get_main_user_id s) incf r = true := by
  unfold upcomingRows at h
  have h1 := (List.take_sublist _ _).subset h
  have h2 := (List.perm_insertionSort rowAsc _).subset h1
  exact (List.mem_filter.1 h2).2

theorem recentRows_filterProp {s : Store} {now : ℚ} {limit : Nat} {r : Row}
    (h : r ∈ recentRows s now limit) : recentFilter now r = true := by
  unfold recentRows at h
  have h1 := (List.take_sublist _ _).subset h
  have h2 := (List.perm_insertionSort rowDesc _).subset h1
  exact (List.mem_filter.1 h2).2

/-! ## Claim theorems -/

/-- C3: the code, evaluated at the `--`-prefixed command names.  Line 367
rewrites every first argument starting with `--` to the command `list`, so
`--next`, `--date`, `--pnr`, `--stats` and `--recent` all dispatch to the
upcoming-flights query with default arguments instead of to the operation
their bare names select; only `--list` coincides with its bare name.  The
explicit `command == "--stats"` (etc.) alternatives of lines 379-402 are
unreachable. -/
theorem claim_C3_router_collapse :
    route "--list" [] = Dispatch.listCmd 20 false ∧
    route "list" [] = Dispatch.listCmd 20 false ∧
    route "--next" [] = Dispatch.listCmd 20 false ∧
    route "next" [] = Dispatch.nextCmd ∧
    route "--date" ["2024-01-01"] = Dispatch.listCmd 20 false ∧
    route "date" ["2024-01-01"] = Dispatch.dateCmd "2024-01-01" ∧
    route "--pnr" ["ABC123"] = Dispatch.listCmd 20 false ∧
    route "pnr" ["ABC123"] = Dispatch.pnrCmd "ABC123" ∧
    route "--stats" [] = Dispatch.listCmd 20 false ∧
    route "stats" [] = Dispatch.statsCmd ∧
    route "--recent" [] = Dispatch.listCmd 20 false ∧
    route "recent" [] = Dispatch.recentCmd none := by
  decide

/-- C4 (amended): every date string rejected by the `%Y-%m-%d` parse —
four-digit year, one-or-two-digit month 1..12, one-or-two-digit day that
exists in that month — makes the on-date operation return the structured
error object carrying the offending input, and the result is independent
of the store (no flight query is executed). -/
theorem claim_C4_invalid_date (s s' : Store) (ds : String)
    (h : strptimeYmd ds = none) :
    get_flights_on_date s ds =
      DateResult.error ("Invalid date format: " ++ ds ++ ". Use YYYY-MM-DD") ∧
    get_flights_on_date s ds = get_flights_on_date s' ds := by
  unfold get_flights_on_date
  rw [h]
  exact ⟨rfl, rfl⟩

/-- C4 witness: `2024-13-01` (invalid month) is rejected and yields
exactly the claimed error object. -/
theorem claim_C4_invalid_date_witness :
    strptimeYmd "2024-13-01" = none ∧
    get_flights_on_date emptyStore "2024-13-01" =
      DateResult.error "Invalid date format: 2024-13-01. Use YYYY-MM-DD" :=
  ⟨by decide, (claim_C4_invalid_date emptyStore emptyStore "2024-13-01" (by decide)).1⟩

/-- C4 counterexample: `2024-1-1` is not a date in `YYYY-MM-DD` form (the
month and day are not two digits), yet `strptime` accepts it, so the
operation returns a successful result — not the claimed error object —
and does query the store. -/
theorem claim_C4_counterexample :
    specValidYYYYMMDD "2024-1-1" = false ∧
    get_flights_on_date emptyStore "2024-1-1" = DateResult.ok "2024-1-1" [] 0 := by
  decide

/-- C5 (amended): only the upcoming/next normalizer nulls the "flight"
label: there it is `"<airline_code> <flight_number>"` when both components
are present and non-empty and `None` when either is missing; the flat
on-date and recent normalizers instead always render the f-string
`f"{airline_code} {flight_number}"`, where a missing component prints as
the text `None`. -/
theorem claim_C5_flight_label :
    (∀ (now : ℚ) (r : Row) (c n : String), r.a.iata = some c →
      r.f.number = some n → c ≠ "" → n ≠ "" →
      (upcomingRecord now r).flight = some (c ++ " " ++ n)) ∧
    (∀ (now : ℚ) (r : Row), r.a.iata = none ∨ r.f.number = none →
      (upcomingRecord now r).flight = none) ∧
    (∀ r : Row, (onDateRecord r).flight = pyStr r.a.iata ++ " " ++ pyStr r.f.number) ∧
    (∀ r : Row, (recentRecord r).flight = pyStr r.a.iata ++ " " ++ pyStr r.f.number) := by
  refine ⟨?_, ?_, fun r => rfl, fun r => rfl⟩
  · intro now r c n hc hn hce hne
    simp only [upcomingRecord, hc, hn]
    rw [if_pos]
    simp [hce, hne]
  · intro now r h
    rcases h with h | h
    · simp only [upcomingRecord, h]
    · simp only [upcomingRecord, h]
      cases r.a.iata <;> rfl

/-- C5 witness: the upcoming normalizer at a row with both components
present. -/
theorem claim_C5_flight_label_witness :
    (upcomingRecord 0 w1Row).flight = some "AS 100" :=
  claim_C5_flight_label.1 0 w1Row "AS" "100" rfl rfl (by decide) (by decide)

/-- C5 counterexample: a recent-flights record whose airline IATA code is
`NULL` still carries a non-null "flight" label, namely the f-string
rendering `"None 100"`, contradicting the claim that the label is null
whenever a component is missing. -/
theorem claim_C5_counterexample :
    noCodeAirline.iata = none ∧
    (get_recent_flights c5Store 1000 20).recent_flights.map RecentRecord.flight =
      ["None 100"] := by
  decide

/-- C6: the kilometers-to-miles conversion yields `None` on a missing or
zero (falsy) distance, and on a positive distance yields
`floor(km * 0.621371)` (distances in the store are non-negative, where
Python's `int()` truncation coincides with the floor). -/
theorem claim_C6_km_to_miles (km : ℚ) (h0 : 0 ≤ km) (hne : km ≠ 0) :
    km_to_miles none = none ∧ km_to_miles (some 0) = none ∧
    km_to_miles (some km) = some ⌊km * (621371 / 1000000 : ℚ)⌋ := by
  refine ⟨rfl, by simp [km_to_miles], ?_⟩
  simp only [km_to_miles]
  rw [if_neg hne]
  unfold pyTrunc
  rw [if_pos (mul_nonneg h0 (by norm_num))]

/-- C6 witness: 100 km converts to 62 miles (floor of 62.1371). -/
theorem claim_C6_km_to_miles_witness :
    (0 : ℚ) ≤ 100 ∧ km_to_miles (some 100) = some 62 := by
  refine ⟨by norm_num, ?_⟩
  rw [(claim_C6_km_to_miles 100 (by norm_num) (by norm_num)).2.2]
  norm_num

/-- C7: duration is `None` when either timestamp is missing; otherwise it
is the string `"<H>h <M>m"` with `H = floor((arr-dep)/3600)` and
`M = floor(((arr-dep) mod 3600)/60)` (Python floored modulus), and for
every pair with `dep < arr` both components are non-negative with
`0 ≤ M < 60`. -/
theorem claim_C7_duration :
    (∀ a : Option ℚ, calculate_duration none a = none) ∧
    (∀ d : Option ℚ, calculate_duration d none = none) ∧
    (∀ d a : ℚ, calculate_duration (some d) (some a) =
      some (toString ⌊(a - d) / 3600⌋ ++ "h " ++
        toString ⌊pyFMod (a - d) 3600 / 60⌋ ++ "m")) ∧
    (∀ d a : ℚ, d < a →
      0 ≤ ⌊(a - d) / 3600⌋ ∧ 0 ≤ ⌊pyFMod (a - d) 3600 / 60⌋ ∧
        ⌊pyFMod (a - d) 3600 / 60⌋ < 60) := by
  refine ⟨fun a => by cases a <;> rfl, fun d => by cases d <;> rfl,
    fun d a => rfl, fun d a h => ⟨?_, ?_, ?_⟩⟩
  · exact Int.floor_nonneg.2 (div_nonneg (sub_nonneg.2 h.le) (by norm_num))
  · exact Int.floor_nonneg.2
      (div_nonneg (pyFMod_nonneg _ (by norm_num)) (by norm_num))
  · have hlt : pyFMod (a - d) 3600 < 3600 := pyFMod_lt _ (by norm_num)
    apply Int.floor_lt.2
    push_cast
    rw [div_lt_iff₀ (by norm_num)]
    linarith

/-- C7 witness: a 7500-second flight is `"2h 5m"`, with the bound
properties discharged at `dep = 0 < arr = 7500`. -/
theorem claim_C7_duration_witness :
    (0 ≤ ⌊((7500 : ℚ) - 0) / 3600⌋ ∧ 0 ≤ ⌊pyFMod ((7500 : ℚ) - 0) 3600 / 60⌋ ∧
      ⌊pyFMod ((7500 : ℚ) - 0) 3600 / 60⌋ < 60) ∧
    calculate_duration (some 0) (some 7500) = some "2h 5m" :=
  ⟨claim_C7_duration.2.2.2 0 7500 (by norm_num), by
    rw [claim_C7_duration.2.2.1 0 7500]
    norm_num [pyFMod]
    decide⟩

/-- C1: with `includeFriends=false` the upcoming-flights operation only
selects rows whose import source is present and not `CONNECTED_FRIEND` and
whose `userId` equals the resolved primary user (so none can differ from
it); the selected rows are ordered by scheduled departure ascending and at
most `limit` (the router default is 20) records are produced, each
normalized from its selected row. -/
theorem claim_C1_upcoming_own_flights (s : Store) (now : ℚ) (limit : Nat) :
    (∀ r ∈ upcomingRows s now limit false,
      r.uf.importSource ≠ some "CONNECTED_FRIEND" ∧
        some r.uf.userId = get_main_user_id s) ∧
    List.Sorted rowAsc (upcomingRows s now limit false) ∧
    (list_upcoming_flights s now limit false).flights.length ≤ limit ∧
    (list_upcoming_flights s now limit false).count =
      (list_upcoming_flights s now limit false).flights.length ∧
    (list_upcoming_flights s now limit false).flights =
      (upcomingRows s now limit false).map (upcomingRecord now) := by
  refine ⟨?_, ?_, ?_, rfl, rfl⟩
  · intro r hr
    have hf : ((r.uf.isMyFlight &&
        (match r.f.departureScheduleGateOriginal with
         | some d => decide (now < d)
         | none => false)) &&
        (match get_main_user_id s with
         | some u => r.uf.userId == u
         | none => false) &&
        (match r.uf.importSource with
         | some src => src != "CONNECTED_FRIEND"
         | none => false)) = true := upcomingRows_filterProp hr
    simp only [Bool.and_eq_true] at hf
    obtain ⟨⟨_, hu⟩, hsrc⟩ := hf
    constructor
    · cases hi : r.uf.importSource with
      | none => rw [hi] at hsrc; simp at hsrc
      | some src =>
        rw [hi] at hsrc
        simp only [bne_iff_ne, ne_eq] at hsrc
        simp [hi, hsrc]
    · cases hm : get_main_user_id s with
      | none => rw [hm] at hu; simp at hu
      | some u =>
        rw [hm] at hu
        simp only [beq_iff_eq] at hu
        rw [hu]
  · exact List.Pairwise.sublist (List.take_sublist _ _)
      (List.sorted_insertionSort rowAsc _)
  · calc (list_upcoming_flights s now limit false).flights.length
        = (upcomingRows s now limit false).length := by
          simp [list_upcoming_flights]
      _ ≤ limit := List.length_take_le _ _

/-- C1 witness: the single selected row of `w1Store` has a
non-connected-friend source and carries the resolved primary user. -/
theorem claim_C1_upcoming_own_flights_witness :
    w1Row.uf.importSource ≠ some "CONNECTED_FRIEND" ∧
      some w1Row.uf.userId = get_main_user_id w1Store :=
  (claim_C1_upcoming_own_flights w1Store 0 20).1 w1Row (by decide)

/-- C2: the primary-user resolver returns `None` exactly when no
`UserFlight` row has a usable (non-null, non-empty, non-connected-friend)
source of import; a returned user has at least one such row and a maximal
per-user count of them; and on the spec's example store — user 1 with 3
`MANUAL` rows, user 2 with 5 `CONNECTED_FRIEND` rows — it returns user 1. -/
theorem claim_C2_primary_user :
    (∀ s : Store,
      get_main_user_id s = none ↔ s.userFlights.filter eligibleSource = []) ∧
    (∀ (s : Store) (u : Nat), get_main_user_id s = some u →
      1 ≤ sourceCount s u ∧ ∀ v : Nat, sourceCount s v ≤ sourceCount s u) ∧
    get_main_user_id exStore = some 1 := by
  refine ⟨?_, ?_, by decide⟩
  · intro s
    unfold get_main_user_id
    rw [maxByCount_eq_none_iff, List.dedup_eq_nil, List.map_eq_nil_iff]
  · intro s u h
    have hmem := maxByCount_mem h
    constructor
    · rw [List.mem_dedup] at hmem
      obtain ⟨uf, hu, he⟩ := List.mem_map.1 hmem
      have : uf ∈ s.userFlights.filter
          (fun uf => eligibleSource uf && uf.userId == u) := by
        rw [List.mem_filter]
        refine ⟨(List.mem_filter.1 hu).1, ?_⟩
        simp [(List.mem_filter.1 hu).2, he]
      exact List.length_pos_of_mem this
    · intro v
      by_cases hv : v ∈ ((s.userFlights.filter eligibleSource).map (·.userId)).dedup
      · exact maxByCount_le h v hv
      · have hz : sourceCount s v = 0 := by
          unfold sourceCount
          rw [List.length_eq_zero, List.filter_eq_nil_iff]
          intro uf hu
          simp only [Bool.and_eq_true, beq_iff_eq, not_and]
          intro hel he
          exact hv (List.mem_dedup.2 (List.mem_map.2
            ⟨uf, List.mem_filter.2 ⟨hu, hel⟩, he⟩))
        rw [hz]
        exact Nat.zero_le _

/-- C2 witness: on the example store, user 1 has a positive count and
dominates user 2 (3 eligible rows against 0). -/
theorem claim_C2_primary_user_witness :
    1 ≤ sourceCount exStore 1 ∧ sourceCount exStore 2 ≤ sourceCount exStore 1 := by
  have h := claim_C2_primary_user.2.1 exStore 1 claim_C2_primary_user.2.2
  exact ⟨h.1, h.2 2⟩

/-- C8: every row selected by the recent-flights operation is
non-archived, marked `isMyFlight`, and departed strictly before `now`;
the rows are ordered by departure descending and at most `limit` (router
default 20) records are produced, each normalized from its selected row. -/
theorem claim_C8_recent_excludes_archived (s : Store) (now : ℚ) (limit : Nat) :
    (∀ r ∈ recentRows s now limit,
      r.uf.isArchived = false ∧ r.uf.isMyFlight = true ∧
        ∃ d, r.f.departureScheduleGateOriginal = some d ∧ d < now) ∧
    List.Sorted rowDesc (recentRows s now limit) ∧
    (get_recent_flights s now limit).count ≤ limit ∧
    (get_recent_flights s now limit).recent_flights =
      (recentRows s now limit).map recentRecord := by
  refine ⟨?_, ?_, ?_, rfl⟩
  · intro r hr
    have hf := recentRows_filterProp hr
    simp only [recentFilter, Bool.and_eq_true, Bool.not_eq_true'] at hf
    obtain ⟨⟨hmy, harch⟩, hdep⟩ := hf
    refine ⟨harch, hmy, ?_⟩
    cases hd : r.f.departureScheduleGateOriginal with
    | none => rw [hd] at hdep; cases hdep
    | some d =>
      rw [hd] at hdep
      simp only [decide_eq_true_eq] at hdep
      exact ⟨d, rfl, hdep⟩
  · exact List.Pairwise.sublist (List.take_sublist _ _)
      (List.sorted_insertionSort rowDesc _)
  · calc (get_recent_flights s now limit).count
        = (recentRows s now limit).length := by simp [get_recent_flights]
      _ ≤ limit := List.length_take_le _ _

/-- C8 witness: the single selected row of `w1Store` at `now = 1000`. -/
theorem claim_C8_recent_excludes_archived_witness :
    w1Row.uf.isArchived = false ∧ w1Row.uf.isMyFlight = true ∧
      ∃ d, w1Row.f.departureScheduleGateOriginal = some d ∧ d < 1000 :=
  (claim_C8_recent_excludes_archived w1Store 1000 20).1 w1Row (by decide)

/-- C9: on a store whose stats join selects no rows, the stats operation
returns zero total flights, a `NULL` upcoming count (the SQL `SUM` over an
empty set, which the claim's aggregate-null alternative admits), zero
total distance and zero earth circumferences; and in general the earth
circumferences figure is the total kilometers divided by 40075, rounded
to two decimal places. -/
theorem claim_C9_stats (s : Store) (now : ℚ) :
    (statsRows s = [] →
      get_flight_stats s now =
        { total_flights := 0, upcoming_flights := none, total_distance_km := 0,
          total_distance_miles := 0, earth_circumferences := 0 }) ∧
    (get_flight_stats s now).earth_circumferences =
      roundTo2 ((get_flight_stats s now).total_distance_km / 40075) := by
  refine ⟨?_, rfl⟩
  intro h
  simp only [get_flight_stats, h]
  norm_num [roundTo2, pyTrunc]

/-- C9 witness: the empty store. -/
theorem claim_C9_stats_witness :
    get_flight_stats emptyStore 0 =
      { total_flights := 0, upcoming_flights := none, total_distance_km := 0,
        total_distance_miles := 0, earth_circumferences := 0 } :=
  (claim_C9_stats emptyStore 0).1 rfl

/-- C10: when the primary-user resolver finds nobody, the
`includeFriends=false` upcoming query compares every row's `userId`
against SQL `NULL`, which matches no row, so the result is the empty
flight list with count 0. -/
theorem claim_C10_null_user_empty (s : Store) (now : ℚ) (limit : Nat)
    (h : get_main_user_id s = none) :
    list_upcoming_flights s now limit false = { flights := [], count := 0 } := by
  have hrows : upcomingRows s now limit false = [] := by
    unfold upcomingRows
    have hfil : (joinRows s).filter
        (upcomingFilter now (get_main_user_id s) false) = [] := by
      rw [List.filter_eq_nil_iff]
      intro r _
      simp [upcomingFilter, h]
    rw [hfil]
    simp
  unfold list_upcoming_flights
  rw [hrows]
  rfl

/-- C10 witness: a store whose only rows were shared by a connected
friend resolves no primary user and yields an empty upcoming list even
though a matching future flight exists. -/
theorem claim_C10_null_user_empty_witness :
    get_main_user_id cfStore = none ∧
      list_upcoming_flights cfStore 0 20 false = { flights := [], count := 0 } :=
  ⟨by decide, claim_C10_null_user_empty cfStore 0 20 (by decide)⟩

end QueryFlights
